import Mathlib

/-!
Verification of the `jwtverifier` package (okta-jwt-verifier-golang) against
its natural-language specification.

The Go source `jwtverifier.go` is shallowly embedded below:

* JSON values decoded by `encoding/json` into `interface\x7b\x7d` are modelled by
  `JsonValue` (Go decodes every JSON number to `float64`; we model numbers
  exactly as rationals, which agrees with `float64` on all timestamps of
  realistic magnitude).
* The Go regular expression used by `isValidJwt` is modelled by a small
  regular-expression language with a derivative-based matcher; Go's
  `MatchString` with a `$`-anchored pattern holds iff some suffix of the
  input is in the pattern's language.
* `base64.StdEncoding.DecodeString` and the `encoding/json` object decoder
  are modelled executably (`base64StdDecode`, `goJsonUnmarshalMap`).
* A Go runtime panic (failed type assertion) is the `fault` outcome, and
  `log.Fatal` (process exit) is the `fatal` outcome: neither is an ordinary
  returned error.
-/

/-- A decoded JSON value, as produced by Go's `encoding/json` into
`interface\x7b\x7d`: numbers are `float64` (modelled exactly as `ℚ`), objects are
`map[string]interface\x7b\x7d` (modelled as association lists with unique keys
after `dedupObj`). -/
inductive JsonValue : Type
| null : JsonValue
| bool (b : Bool) : JsonValue
| num (q : ℚ) : JsonValue
| str (s : String) : JsonValue
| arr (elems : List JsonValue) : JsonValue
| obj (members : List (String × JsonValue)) : JsonValue

/-- A Go claims map `map[string]interface\x7b\x7d`. -/
def Claims : Type := List (String × JsonValue)

/-- Go map indexing `m[k]`: the first binding of `k`, if any (our maps are
deduplicated, so first = only). `none` models the zero `interface\x7b\x7d` value
returned for an absent key. -/
def jsonLookup (m : Claims) (k : String) : Option JsonValue :=
  match m with
  | [] => none
  | (k', v) :: rest => if k' = k then some v else jsonLookup rest k

/-- Insert-or-replace a key in an association list (Go map assignment). -/
def upsert (m : Claims) (k : String) (v : JsonValue) : Claims :=
  match m with
  | [] => [(k, v)]
  | (k', v') :: rest => if k' = k then (k', v) :: rest else (k', v') :: upsert rest k v

/-- Collapse duplicate keys, later bindings winning, as `encoding/json` does
when it fills a Go map. -/
def dedupObj (kvs : List (String × JsonValue)) : Claims :=
  kvs.foldl (fun acc kv => upsert acc kv.1 kv.2) []

/-! ### The shape-check regular expression

`isValidJwt` uses the Go pattern
`[a-zA-Z0-9-_]+\.[a-zA-Z0-9-_]+\.?([a-zA-Z0-9-_]+)[/a-zA-Z0-9-_]+?$`
with `MatchString`, i.e. an unanchored-start, `$`-anchored containment test. -/

/-- The character class `[a-zA-Z0-9-_]` of the Go pattern. -/
def isB64UrlChar (c : Char) : Bool :=
  (65 ≤ c.toNat && c.toNat ≤ 90) || (97 ≤ c.toNat && c.toNat ≤ 122) ||
  (48 ≤ c.toNat && c.toNat ≤ 57) || c == '-' || c == '_'

/-- The character class `[/a-zA-Z0-9-_]` of the Go pattern. -/
def isLastSegChar (c : Char) : Bool := isB64UrlChar c || c == '/'

/-- The literal `\.` of the Go pattern. -/
def isDotChar (c : Char) : Bool := c == '.'

/-- Regular expressions over characters, enough for the Go pattern. -/
inductive RE : Type
| fail : RE
| eps : RE
| cls (p : Char → Bool) : RE
| cat (r s : RE) : RE
| alt (r s : RE) : RE
| star (r : RE) : RE

/-- Smart concatenation (keeps derivatives small). -/
def reCat : RE → RE → RE
| RE.fail, _ => RE.fail
| RE.eps, s => s
| _, RE.fail => RE.fail
| r, RE.eps => r
| r, s => RE.cat r s

/-- Smart alternation (keeps derivatives small). -/
def reAlt : RE → RE → RE
| RE.fail, s => s
| r, RE.fail => r
| r, s => RE.alt r s

/-- Does the language of `r` contain the empty word? -/
def reNullable : RE → Bool
| RE.fail => false
| RE.eps => true
| RE.cls _ => false
| RE.cat r s => reNullable r && reNullable s
| RE.alt r s => reNullable r || reNullable s
| RE.star _ => true

/-- Brzozowski derivative of `r` by the character `c`. -/
def reDeriv (c : Char) : RE → RE
| RE.fail => RE.fail
| RE.eps => RE.fail
| RE.cls p => if p c then RE.eps else RE.fail
| RE.cat r s =>
    if reNullable r then reAlt (reCat (reDeriv c r) s) (reDeriv c s)
    else reCat (reDeriv c r) s
| RE.alt r s => reAlt (reDeriv c r) (reDeriv c s)
| RE.star r => reCat (reDeriv c r) (RE.star r)

/-- Full match of a word against `r`, by iterated derivatives. -/
def reMatch (r : RE) : List Char → Bool
| [] => reNullable r
| c :: cs => reMatch (reDeriv c r) cs

/-- `X+` as `X · X*`. -/
def rePlus (r : RE) : RE := RE.cat r (RE.star r)

/-- `X?` as `ε | X`. -/
def reOpt (r : RE) : RE := RE.alt RE.eps r

/-- The Go pattern of `isValidJwt`:
`[a-zA-Z0-9-_]+ \. [a-zA-Z0-9-_]+ \.? ([a-zA-Z0-9-_]+) [/a-zA-Z0-9-_]+?`
(laziness of the final `+?` does not change the matched language). -/
def jwtPattern : RE :=
  RE.cat (rePlus (RE.cls isB64UrlChar))
    (RE.cat (RE.cls isDotChar)
      (RE.cat (rePlus (RE.cls isB64UrlChar))
        (RE.cat (reOpt (RE.cls isDotChar))
          (RE.cat (rePlus (RE.cls isB64UrlChar))
            (rePlus (RE.cls isLastSegChar))))))

/-- All suffixes of a word, the word itself first. -/
def listSuffixes : List Char → List (List Char)
| [] => [[]]
| c :: cs => (c :: cs) :: listSuffixes cs

/-- Go `regexp.MatchString` for a `$`-anchored pattern: the input contains a
match iff some suffix is in the pattern's language. -/
def jwtRegexMatches (s : String) : Bool :=
  (listSuffixes s.data).any (fun t => reMatch jwtPattern t)

/-! ### base64 standard decoding (`base64.StdEncoding.DecodeString`) -/

/-- Value of one standard-alphabet base64 character. -/
def b64Val (c : Char) : Option Nat :=
  let n := c.toNat
  if 65 ≤ n && n ≤ 90 then some (n - 65)
  else if 97 ≤ n && n ≤ 122 then some (n - 71)
  else if 48 ≤ n && n ≤ 57 then some (n + 4)
  else if n = 43 then some 62
  else if n = 47 then some 63
  else none

/-- Decode base64 input four characters at a time; `=` padding is allowed only
in the final quantum (one or two characters), as Go's `StdEncoding` accepts
(trailing bits need not be zero in non-strict mode). -/
def base64Blocks : List Char → Option (List Nat)
| [] => some []
| c1 :: c2 :: c3 :: c4 :: rest =>
    match b64Val c1, b64Val c2 with
    | some v1, some v2 =>
      if c3 == '=' then
        if c4 == '=' && rest.isEmpty then some [v1 * 4 + v2 / 16] else none
      else
        match b64Val c3 with
        | some v3 =>
          if c4 == '=' then
            if rest.isEmpty then some [v1 * 4 + v2 / 16, (v2 % 16) * 16 + v3 / 4]
            else none
          else
            match b64Val c4 with
            | some v4 =>
              match base64Blocks rest with
              | some tl =>
                  some ((v1 * 4 + v2 / 16) :: ((v2 % 16) * 16 + v3 / 4) ::
                        ((v3 % 4) * 64 + v4) :: tl)
              | none => none
            | none => none
        | none => none
    | _, _ => none
| _ => none

/-- `base64.StdEncoding.DecodeString`: newlines are ignored, the remaining
length must be a multiple of four, result is the byte sequence. -/
def base64StdDecode (s : List Char) : Option (List Nat) :=
  base64Blocks (s.filter (fun c => !(c == '\n') && !(c == '\r')))

/-! ### A JSON parser modelling `encoding/json` (as far as this package uses it) -/

/-- JSON whitespace. -/
def jsonWs (c : Char) : Bool := c == ' ' || c == '\t' || c == '\n' || c == '\r'

/-- Drop leading JSON whitespace. -/
def jsonSkipWs : List Char → List Char
| [] => []
| c :: cs => if jsonWs c then jsonSkipWs cs else c :: cs

/-- ASCII decimal digit. -/
def jsonDigit (c : Char) : Bool := 48 ≤ c.toNat && c.toNat ≤ 57

/-- Split off a maximal run of digits. -/
def jsonTakeDigits : List Char → List Char × List Char
| [] => ([], [])
| c :: cs =>
    if jsonDigit c then
      let p := jsonTakeDigits cs
      (c :: p.1, p.2)
    else ([], c :: cs)

/-- Numeric value of a digit run. -/
def digitsVal (ds : List Char) : Nat :=
  ds.foldl (fun a c => a * 10 + (c.toNat - 48)) 0

/-- Hexadecimal digit value. -/
def jsonHexVal (c : Char) : Option Nat :=
  let n := c.toNat
  if 48 ≤ n && n ≤ 57 then some (n - 48)
  else if 97 ≤ n && n ≤ 102 then some (n - 87)
  else if 65 ≤ n && n ≤ 70 then some (n - 55)
  else none

/-- The `"` character. -/
def quoteChar : Char := Char.ofNat 34

/-- The `\` character. -/
def backslashChar : Char := Char.ofNat 92

/-- The opening-brace character. -/
def lbraceChar : Char := Char.ofNat 123

/-- The closing-brace character. -/
def rbraceChar : Char := Char.ofNat 125

/-- Parse a JSON string body after its opening quote: escapes as in RFC 8259,
raw control characters rejected. -/
def parseJsonStringAux (acc : List Char) : List Char → Option (String × List Char)
| [] => none
| c :: rest =>
    if c == quoteChar then some (String.mk acc.reverse, rest)
    else if c == backslashChar then
      match rest with
      | [] => none
      | e :: rest2 =>
        if e == quoteChar then parseJsonStringAux (quoteChar :: acc) rest2
        else if e == backslashChar then parseJsonStringAux (backslashChar :: acc) rest2
        else if e == '/' then parseJsonStringAux ('/' :: acc) rest2
        else if e == 'b' then parseJsonStringAux (Char.ofNat 8 :: acc) rest2
        else if e == 'f' then parseJsonStringAux (Char.ofNat 12 :: acc) rest2
        else if e == 'n' then parseJsonStringAux ('\n' :: acc) rest2
        else if e == 'r' then parseJsonStringAux ('\r' :: acc) rest2
        else if e == 't' then parseJsonStringAux ('\t' :: acc) rest2
        else if e == 'u' then
          match rest2 with
          | a :: b :: c2 :: d :: rest3 =>
            match jsonHexVal a, jsonHexVal b, jsonHexVal c2, jsonHexVal d with
            | some va, some vb, some vc, some vd =>
                parseJsonStringAux (Char.ofNat (((va * 16 + vb) * 16 + vc) * 16 + vd) :: acc) rest3
            | _, _, _, _ => none
          | _ => none
        else none
    else if c.toNat < 32 then none
    else parseJsonStringAux (c :: acc) rest

/-- `10 ^ n` as a rational. -/
def pow10 (n : Nat) : ℚ := (10 : ℚ) ^ n

/-- Parse a JSON number (RFC 8259 grammar) to its exact rational value. -/
def parseJsonNumber (cs : List Char) : Option (ℚ × List Char) :=
  let sp : Bool × List Char :=
    match cs with
    | c :: r => if c == '-' then (true, r) else (false, cs)
    | [] => (false, cs)
  let ip := jsonTakeDigits sp.2
  if ip.1.isEmpty then none
  else if 1 < ip.1.length && ip.1.headD '0' == '0' then none
  else
    let fp : Option (List Char × List Char) :=
      match ip.2 with
      | c :: r =>
        if c == '.' then
          let q := jsonTakeDigits r
          if q.1.isEmpty then none else some q
        else some ([], ip.2)
      | [] => some ([], ip.2)
    match fp with
    | none => none
    | some (fracDs, cs3) =>
      let ep : Option (Int × List Char) :=
        match cs3 with
        | c :: r =>
          if c == 'e' || c == 'E' then
            let sr : Int × List Char :=
              match r with
              | c2 :: r2 => if c2 == '+' then (1, r2) else if c2 == '-' then (-1, r2) else (1, r)
              | [] => (1, r)
            let q := jsonTakeDigits sr.2
            if q.1.isEmpty then none else some (sr.1 * (digitsVal q.1 : Int), q.2)
          else some (0, cs3)
        | [] => some (0, cs3)
      match ep with
      | none => none
      | some (ex, cs4) =>
        let mant : Int := (if sp.1 then -1 else 1) * ((digitsVal (ip.1 ++ fracDs) : Nat) : Int)
        let e10 : Int := ex - (fracDs.length : Int)
        let v : ℚ :=
          if 0 ≤ e10 then (mant : ℚ) * pow10 e10.toNat else (mant : ℚ) / pow10 (-e10).toNat
        some (v, cs4)

mutual

/-- Parse one JSON value (fuel-indexed for totality; the callers supply fuel
larger than any possible recursion depth). -/
def parseJsonValue : Nat → List Char → Option (JsonValue × List Char)
| 0, _ => none
| fuel + 1, cs =>
  match jsonSkipWs cs with
  | 'n' :: 'u' :: 'l' :: 'l' :: r => some (JsonValue.null, r)
  | 't' :: 'r' :: 'u' :: 'e' :: r => some (JsonValue.bool true, r)
  | 'f' :: 'a' :: 'l' :: 's' :: 'e' :: r => some (JsonValue.bool false, r)
  | c :: r =>
    if c == quoteChar then
      match parseJsonStringAux [] r with
      | some (s, r2) => some (JsonValue.str s, r2)
      | none => none
    else if c == '[' then
      match jsonSkipWs r with
      | c2 :: r2 =>
        if c2 == ']' then some (JsonValue.arr [], r2)
        else
          match parseJsonElems fuel (c2 :: r2) with
          | some (es, r3) => some (JsonValue.arr es, r3)
          | none => none
      | [] => none
    else if c == lbraceChar then
      match jsonSkipWs r with
      | c2 :: r2 =>
        if c2 == rbraceChar then some (JsonValue.obj [], r2)
        else
          match parseJsonMembers fuel (c2 :: r2) with
          | some (ms, r3) => some (JsonValue.obj ms, r3)
          | none => none
      | [] => none
    else if c == '-' || jsonDigit c then
      match parseJsonNumber (c :: r) with
      | some (q, r2) => some (JsonValue.num q, r2)
      | none => none
    else none
  | [] => none

/-- Parse one-or-more comma-separated array elements up to `]`. -/
def parseJsonElems : Nat → List Char → Option (List JsonValue × List Char)
| 0, _ => none
| fuel + 1, cs =>
  match parseJsonValue fuel cs with
  | none => none
  | some (v, r) =>
    match jsonSkipWs r with
    | ',' :: r2 =>
      match parseJsonElems fuel r2 with
      | some (vs, r3) => some (v :: vs, r3)
      | none => none
    | ']' :: r2 => some ([v], r2)
    | _ => none

/-- Parse one-or-more comma-separated object members up to the closing brace. -/
def parseJsonMembers : Nat → List Char → Option (List (String × JsonValue) × List Char)
| 0, _ => none
| fuel + 1, cs =>
  match jsonSkipWs cs with
  | c :: r =>
    if c == quoteChar then
      match parseJsonStringAux [] r with
      | none => none
      | some (key, r1) =>
        match jsonSkipWs r1 with
        | ':' :: r2 =>
          match parseJsonValue fuel r2 with
          | none => none
          | some (v, r3) =>
            match jsonSkipWs r3 with
            | ',' :: r4 =>
              match parseJsonMembers fuel r4 with
              | some (ms, r5) => some ((key, v) :: ms, r5)
              | none => none
            | c4 :: r4 =>
              if c4 == rbraceChar then some ([(key, v)], r4) else none
            | [] => none
        | _ => none
    else none
  | [] => none

end

/-- `json.Unmarshal` of `bytes` into a `map[string]interface\x7b\x7d`: the whole
input must be one JSON value (plus whitespace); a top-level object fills the
map (duplicate keys, later wins), a top-level `null` leaves it empty, and any
other top-level value is a type error (`none`). -/
def goJsonUnmarshalMap (bytes : List Nat) : Option Claims :=
  let cs := bytes.map Char.ofNat
  match parseJsonValue (2 * cs.length + 2) cs with
  | some (v, rest) =>
    if (jsonSkipWs rest).isEmpty then
      match v with
      | JsonValue.obj kvs => some (dedupObj kvs)
      | JsonValue.null => some []
      | _ => none
    else none
  | none => none

/-- `json.NewDecoder(body).Decode(&md)` with its error discarded, as
`getMetaData` does: reads one JSON value from the stream; only a successfully
decoded top-level object changes `md`, otherwise `md` stays empty. -/
def goJsonDecodeMapLossy (body : String) : Claims :=
  match parseJsonValue (2 * body.data.length + 2) body.data with
  | some (JsonValue.obj kvs, _) => dedupObj kvs
  | _ => []

/-! ### Errors, the verifier structure, and `isValidJwt` -/

/-- A Go `error` value: all errors this package builds come from
`fmt.Errorf`-style formatting, so a message suffices. -/
inductive GoErr : Type
| errorf (msg : String) : GoErr

/-- The message carried by an error (`err.Error()`). -/
def GoErr.message : GoErr → String
| GoErr.errorf m => m

/-- Modelled from the spec: `errors.JwtEmptyStringError()` comes from the
repository's `errors` package, which is not among the given sources; the spec
calls it `EmptyTokenError`, raised when the token string is empty. Its message
text is irrelevant to every claim. -/
def jwtEmptyStringError : GoErr := GoErr.errorf "token string cannot be empty"

/-- `fmt` rendering of a `%s` verb applied to a possibly-nil `error`. -/
def goErrFmt : Option GoErr → String
| none => "%!s(<nil>)"
| some e => e.message

/-- `fmt` rendering of a `%s` verb applied to an `interface\x7b\x7d` claim value
(string claims print verbatim; other dynamic types use Go's `%!s(...)` notice,
abbreviated here — no claim inspects these renderings). -/
def goFmtS : Option JsonValue → String
| none => "%!s(<nil>)"
| some (JsonValue.str s) => s
| some (JsonValue.num _) => "%!s(float64)"
| some (JsonValue.bool _) => "%!s(bool)"
| some (JsonValue.null) => "<nil>"
| some (JsonValue.arr _) => "%!s(array)"
| some (JsonValue.obj _) => "map[...]"

/-- Go comparison of an `interface\x7b\x7d` value against a `string` operand
(`v != s` negated): equal iff the dynamic type is `string` and the values
agree. A nil interface or any other dynamic type is simply unequal — this
comparison never panics because `string` is comparable. -/
def interfaceEqString (v : Option JsonValue) (s : String) : Bool :=
  match v with
  | some (JsonValue.str t) => t = s
  | _ => false

/-- `padHeader`: pad with `=` to a length that is a multiple of four. -/
def padHeader (header : List Char) : List Char :=
  let i := header.length % 4
  if i ≠ 0 then header ++ List.replicate (4 - i) '=' else header

/-- `strings.Split(jwt, ".")[0]`: the chunk before the first period. -/
def headerSegment (jwt : String) : List Char :=
  jwt.data.takeWhile (fun c => !(c == '.'))

/-- `isValidJwt` (jwtverifier.go lines 257–299): empty-token error, then the
unanchored regular-expression shape test, then base64 decoding of the padded
first segment, JSON decoding, and the exactly-`alg`/`kid`, `alg = "RS256"`
header checks. Every failure after the empty check is `(false, none)`. -/
def isValidJwt (jwt : String) : Bool × Option GoErr :=
  if jwt = "" then (false, some jwtEmptyStringError)
  else if !jwtRegexMatches jwt then (false, none)
  else
    match base64StdDecode (padHeader (headerSegment jwt)) with
    | none => (false, none)
    | some headerDecoded =>
      match goJsonUnmarshalMap headerDecoded with
      | none => (false, none)
      | some jsonObject =>
        if jsonObject.length ≠ 2 then (false, none)
        else if (jsonLookup jsonObject "alg").isNone || (jsonLookup jsonObject "kid").isNone then
          (false, none)
        else if !interfaceEqString (jsonLookup jsonObject "alg") "RS256" then (false, none)
        else (true, none)

/-- The `Discovery` collaborator: only `GetWellKnownUrl()` is consumed. -/
structure Discovery : Type where
  wellKnownUrl : String

/-- Modelled from the spec: the default `oidc.Oidc` discovery (package
`discovery/oidc`, not among the given sources) supplies the OpenID-Connect
well-known metadata path suffix. -/
def oidcDiscovery : Discovery := Discovery.mk "/.well-known/openid-configuration"

/-- The `Adaptor` collaborator: `Decode(jwt, jwksUri)` verifies the signature
and returns the decoded payload (an arbitrary `interface\x7b\x7d`) or an error. -/
structure Adaptor : Type where
  decode : String → String → Sum GoErr JsonValue

/-- Modelled from the spec: the default `lestrratGoJwx` adaptor (package
`adaptors/lestrratGoJwx`, not among the given sources) is an external
signature decoder; its behaviour is irrelevant to every claim, which all
quantify over the adaptor or supply a concrete one. -/
def defaultAdaptor : Adaptor := Adaptor.mk (fun _ _ => Sum.inl (GoErr.errorf "signature"))

/-- The `JwtVerifier` structure (jwtverifier.go lines 35–45). `Discovery` and
`Adaptor` are interface fields, so `none` models a nil interface. -/
structure JwtVerifier : Type where
  Issuer : String
  Leeway : Int
  ClaimsToValidate : List (String × String)
  Discovery : Option Discovery
  Adaptor : Option Adaptor

/-- Go `map[string]string` indexing with its zero-value default. -/
def claimsToValidateGet (j : JwtVerifier) (k : String) : String :=
  match jsonStrLookup j.ClaimsToValidate k with
  | some v => v
  | none => ""
where
  /-- First binding of `k` in an association list of strings. -/
  jsonStrLookup : List (String × String) → String → Option String
  | [], _ => none
  | (k', v) :: rest, k => if k' = k then some v else jsonStrLookup rest k

/-- `New` (jwtverifier.go lines 51–68): fill in the default discovery and
adaptor when nil, and set `Leeway` to 120 — unconditionally. -/
def New (j : JwtVerifier) : JwtVerifier :=
  let j1 := match j.Discovery with
    | none => { j with Discovery := some oidcDiscovery }
    | some _ => j
  let j2 := match j1.Adaptor with
    | none => { j1 with Adaptor := some defaultAdaptor }
    | some _ => j1
  { j2 with Leeway := 120 }

/-! ### The individual claim checks -/

/-- Outcome of one claim check: `ok` (nil error), `fails msg` (non-nil error),
or `fault` (a Go runtime panic from a failed type assertion — not an error
value at all). -/
inductive CheckResult : Type
| ok : CheckResult
| fails (msg : String) : CheckResult
| fault : CheckResult

/-- `validateNonce` (lines 183–191): opt-in equality against the configured
`nonce` string; a non-string or absent claim simply compares unequal. -/
def validateNonce (j : JwtVerifier) (nonce : Option JsonValue) : CheckResult :=
  if claimsToValidateGet j "nonce" = "" then CheckResult.ok
  else if !interfaceEqString nonce (claimsToValidateGet j "nonce") then
    CheckResult.fails ("nonce: " ++ goFmtS nonce ++ " does not match " ++ claimsToValidateGet j "nonce")
  else CheckResult.ok

/-- `validateAudience` (lines 193–201). -/
def validateAudience (j : JwtVerifier) (audience : Option JsonValue) : CheckResult :=
  if claimsToValidateGet j "aud" = "" then CheckResult.ok
  else if !interfaceEqString audience (claimsToValidateGet j "aud") then
    CheckResult.fails ("aud: " ++ goFmtS audience ++ " does not match " ++ claimsToValidateGet j "aud")
  else CheckResult.ok

/-- `validateClientId` (lines 203–212). -/
def validateClientId (j : JwtVerifier) (clientId : Option JsonValue) : CheckResult :=
  if claimsToValidateGet j "cid" = "" then CheckResult.ok
  else if !interfaceEqString clientId (claimsToValidateGet j "cid") then
    CheckResult.fails ("clientId: " ++ goFmtS clientId ++ " does not match " ++ claimsToValidateGet j "cid")
  else CheckResult.ok

/-- `validateIss` (lines 228–237). -/
def validateIss (j : JwtVerifier) (issuer : Option JsonValue) : CheckResult :=
  if claimsToValidateGet j "iss" = "" then CheckResult.ok
  else if !interfaceEqString issuer (claimsToValidateGet j "iss") then
    CheckResult.fails ("iss: " ++ goFmtS issuer ++ " does not match " ++ claimsToValidateGet j "iss")
  else CheckResult.ok

/-- `validateExp` (lines 214–219): `float64(time.Now().Unix() - j.Leeway) >
exp.(float64)`. The type assertion `exp.(float64)` faults unless the claim is
a JSON number. -/
def validateExp (now leeway : Int) (exp : Option JsonValue) : CheckResult :=
  match exp with
  | some (JsonValue.num e) =>
      if ((now - leeway : Int) : ℚ) > e then CheckResult.fails "the token is expired"
      else CheckResult.ok
  | _ => CheckResult.fault

/-- `validateIat` (lines 221–226): `float64(time.Now().Unix() + j.Leeway) <
iat.(float64)`. Defined in the source but never called by either flow. -/
def validateIat (now leeway : Int) (iat : Option JsonValue) : CheckResult :=
  match iat with
  | some (JsonValue.num i) =>
      if ((now + leeway : Int) : ℚ) < i then CheckResult.fails "the token was issued in the future"
      else CheckResult.ok
  | _ => CheckResult.fault

/-! ### The ordered claims stage of both flows -/

/-- Outcome of the claims stage: Go returns `&myJwt` (the decoded claim set)
together with a nil or non-nil error, or the whole call faults. -/
inductive ClaimsOutcome : Type
| success (claims : Claims) : ClaimsOutcome
| failure (claims : Claims) (msg : String) : ClaimsOutcome
| fault : ClaimsOutcome

/-- The claims stage of `VerifyAccessToken` (jwtverifier.go lines 87–112):
issuer, audience, client id, expiry; then line 107 applies `validateExp` —
not `validateIat` — to the `iat` claim. Each failing check returns `&myJwt`
with a wrapping error at once. -/
def verifyAccessClaims (j : JwtVerifier) (now : Int) (token : Claims) : ClaimsOutcome :=
  match validateIss j (jsonLookup token "iss") with
  | CheckResult.fault => ClaimsOutcome.fault
  | CheckResult.fails e =>
      ClaimsOutcome.failure token ("the `Issuer` was not able to be validated. " ++ e)
  | CheckResult.ok =>
  match validateAudience j (jsonLookup token "aud") with
  | CheckResult.fault => ClaimsOutcome.fault
  | CheckResult.fails e =>
      ClaimsOutcome.failure token ("the `Audience` was not able to be validated. " ++ e)
  | CheckResult.ok =>
  match validateClientId j (jsonLookup token "cid") with
  | CheckResult.fault => ClaimsOutcome.fault
  | CheckResult.fails e =>
      ClaimsOutcome.failure token ("the `Client Id` was not able to be validated. " ++ e)
  | CheckResult.ok =>
  match validateExp now j.Leeway (jsonLookup token "exp") with
  | CheckResult.fault => ClaimsOutcome.fault
  | CheckResult.fails e =>
      ClaimsOutcome.failure token ("the `Expiration` was not able to be validated. " ++ e)
  | CheckResult.ok =>
  match validateExp now j.Leeway (jsonLookup token "iat") with
  | CheckResult.fault => ClaimsOutcome.fault
  | CheckResult.fails e =>
      ClaimsOutcome.failure token ("the `Issued At` was not able to be validated. " ++ e)
  | CheckResult.ok => ClaimsOutcome.success token

/-- The claims stage of `VerifyIdToken` (jwtverifier.go lines 147–172):
issuer, audience, expiry, then line 162 applies `validateExp` to `iat`, then
nonce. -/
def verifyIdClaims (j : JwtVerifier) (now : Int) (token : Claims) : ClaimsOutcome :=
  match validateIss j (jsonLookup token "iss") with
  | CheckResult.fault => ClaimsOutcome.fault
  | CheckResult.fails e =>
      ClaimsOutcome.failure token ("the `Issuer` was not able to be validated. " ++ e)
  | CheckResult.ok =>
  match validateAudience j (jsonLookup token "aud") with
  | CheckResult.fault => ClaimsOutcome.fault
  | CheckResult.fails e =>
      ClaimsOutcome.failure token ("the `Audience` was not able to be validated. " ++ e)
  | CheckResult.ok =>
  match validateExp now j.Leeway (jsonLookup token "exp") with
  | CheckResult.fault => ClaimsOutcome.fault
  | CheckResult.fails e =>
      ClaimsOutcome.failure token ("the `Expiration` was not able to be validated. " ++ e)
  | CheckResult.ok =>
  match validateExp now j.Leeway (jsonLookup token "iat") with
  | CheckResult.fault => ClaimsOutcome.fault
  | CheckResult.fails e =>
      ClaimsOutcome.failure token ("the `Issued At` was not able to be validated. " ++ e)
  | CheckResult.ok =>
  match validateNonce j (jsonLookup token "nonce") with
  | CheckResult.fault => ClaimsOutcome.fault
  | CheckResult.fails e =>
      ClaimsOutcome.failure token ("the `Nonce` was not able to be validated. " ++ e)
  | CheckResult.ok => ClaimsOutcome.success token

/-- One entry of a claim-check sequence: the claim key read from the token,
the display name used in the wrapping error, and the check itself. -/
structure ClaimCheck : Type where
  key : String
  displayName : String
  run : Option JsonValue → CheckResult

/-- The spec's short-circuiting claims-check state machine: run the checks in
list order; the first failing check stops the sequence and yields the decoded
claim set together with an error naming the failing claim; a fault aborts. -/
def runChecks (token : Claims) : List ClaimCheck → ClaimsOutcome
| [] => ClaimsOutcome.success token
| chk :: rest =>
  match chk.run (jsonLookup token chk.key) with
  | CheckResult.fault => ClaimsOutcome.fault
  | CheckResult.fails e =>
      ClaimsOutcome.failure token
        (("the `" ++ chk.displayName ++ "` was not able to be validated. ") ++ e)
  | CheckResult.ok => runChecks token rest

/-- The access-token check sequence, in the spec's order (the two timestamp
steps both run the expiry comparison, as the source does). -/
def accessCheckSequence (j : JwtVerifier) (now : Int) : List ClaimCheck :=
  [ClaimCheck.mk "iss" "Issuer" (validateIss j),
   ClaimCheck.mk "aud" "Audience" (validateAudience j),
   ClaimCheck.mk "cid" "Client Id" (validateClientId j),
   ClaimCheck.mk "exp" "Expiration" (validateExp now j.Leeway),
   ClaimCheck.mk "iat" "Issued At" (validateExp now j.Leeway)]

/-- The identity-token check sequence, in the spec's order. -/
def idCheckSequence (j : JwtVerifier) (now : Int) : List ClaimCheck :=
  [ClaimCheck.mk "iss" "Issuer" (validateIss j),
   ClaimCheck.mk "aud" "Audience" (validateAudience j),
   ClaimCheck.mk "exp" "Expiration" (validateExp now j.Leeway),
   ClaimCheck.mk "iat" "Issued At" (validateExp now j.Leeway),
   ClaimCheck.mk "nonce" "Nonce" (validateNonce j)]

/-! ### The decode stage and the two public flows -/

/-- The outside world a verification call interacts with: the HTTP response
to the discovery-metadata `GET`, and the current Unix time read by the
timestamp checks. The signature decoder lives in `JwtVerifier.Adaptor`. -/
structure World : Type where
  httpGet : String → Sum String String
  now : Int

/-- Result of a whole Go call: an ordinary `(*Jwt, error)` return, a process
abort via `log.Fatal`, or a runtime panic. -/
inductive FlowResult : Type
| ret (res : Option Claims) (err : Option GoErr) : FlowResult
| fatal (msg : String) : FlowResult
| fault : FlowResult

/-- Intermediate result of an internal Go call. -/
inductive GoResult (α : Type) : Type
| ok (a : α) : GoResult α
| error (e : GoErr) : GoResult α
| fatal (msg : String) : GoResult α
| fault : GoResult α

/-- `getMetaData` (jwtverifier.go lines 239–255): `GET issuer + wellKnownUrl`;
on a transport error the code calls `log.Fatal(err)` — aborting the process,
the `return` after it being dead code; on success the JSON decode error is
discarded and the (possibly empty) map is returned with a nil error. A nil
`Discovery` interface faults on the `GetWellKnownUrl` call. -/
def getMetaData (j : JwtVerifier) (w : World) : GoResult Claims :=
  match j.Discovery with
  | none => GoResult.fault
  | some d =>
    match w.httpGet (j.Issuer ++ d.wellKnownUrl) with
    | Sum.inl transportErr => GoResult.fatal transportErr
    | Sum.inr body => GoResult.ok (goJsonDecodeMapLossy body)

/-- `decodeJwt` (jwtverifier.go lines 115–128): fetch metadata, then
`metaData["jwks_uri"].(string)` — a type assertion that faults when the field
is absent or not a string — then the adaptor decode, whose error is wrapped
as "could not decode token". A nil `Adaptor` interface faults. -/
def decodeJwt (j : JwtVerifier) (w : World) (jwt : String) : GoResult JsonValue :=
  match getMetaData j w with
  | GoResult.fatal m => GoResult.fatal m
  | GoResult.fault => GoResult.fault
  | GoResult.error e => GoResult.error e
  | GoResult.ok metaData =>
    match jsonLookup metaData "jwks_uri" with
    | some (JsonValue.str jwksUri) =>
      match j.Adaptor with
      | none => GoResult.fault
      | some a =>
        match a.decode jwt jwksUri with
        | Sum.inl e => GoResult.error (GoErr.errorf ("could not decode token: " ++ e.message))
        | Sum.inr resp => GoResult.ok resp
    | _ => GoResult.fault

/-- Lift the claims-stage outcome to the flow's `(*Jwt, error)` return. -/
def claimsOutcomeToFlow : ClaimsOutcome → FlowResult
| ClaimsOutcome.success c => FlowResult.ret (some c) none
| ClaimsOutcome.failure c m => FlowResult.ret (some c) (some (GoErr.errorf m))
| ClaimsOutcome.fault => FlowResult.fault

/-- `VerifyAccessToken` (jwtverifier.go lines 70–113): a negative shape check
returns a generic "token is not valid" error wrapping the shape check's error
value (nil or not); then decode; then `resp.(map[string]interface\x7b\x7d)` —
faulting if the decoded payload is not a JSON object — then the access-token
claim sequence. -/
def VerifyAccessToken (j : JwtVerifier) (w : World) (jwt : String) : FlowResult :=
  let v := isValidJwt jwt
  if v.1 = false then
    FlowResult.ret none (some (GoErr.errorf ("token is not valid: " ++ goErrFmt v.2)))
  else
    match decodeJwt j w jwt with
    | GoResult.error e => FlowResult.ret none (some e)
    | GoResult.fatal m => FlowResult.fatal m
    | GoResult.fault => FlowResult.fault
    | GoResult.ok resp =>
      match resp with
      | JsonValue.obj kvs => claimsOutcomeToFlow (verifyAccessClaims j w.now (dedupObj kvs))
      | _ => FlowResult.fault

/-- `VerifyIdToken` (jwtverifier.go lines 130–173): a negative shape check
returns the shape check's error value unchanged (so a nil error propagates as
nil); then decode; then the identity-token claim sequence. -/
def VerifyIdToken (j : JwtVerifier) (w : World) (jwt : String) : FlowResult :=
  let v := isValidJwt jwt
  if v.1 = false then FlowResult.ret none v.2
  else
    match decodeJwt j w jwt with
    | GoResult.error e => FlowResult.ret none (some e)
    | GoResult.fatal m => FlowResult.fatal m
    | GoResult.fault => FlowResult.fault
    | GoResult.ok resp =>
      match resp with
      | JsonValue.obj kvs => claimsOutcomeToFlow (verifyIdClaims j w.now (dedupObj kvs))
      | _ => FlowResult.fault

/-! ### Spec-side definitions and concrete fixtures -/

/-- Is the claim value a JSON number (Go dynamic type `float64`)? Exactly
these values survive the `.(float64)` type assertion. -/
def isNumericClaim : Option JsonValue → Bool
| some (JsonValue.num _) => true
| _ => false

/-- `strings.Split` on `.`: the period-delimited segments of a token. -/
def splitOnDots : List Char → List (List Char)
| [] => [[]]
| c :: cs =>
  if c == '.' then [] :: splitOnDots cs
  else
    match splitOnDots cs with
    | seg :: rest => (c :: seg) :: rest
    | [] => [[c]]

/-- Modelled from the spec's words (§4.1): the header obtained by
base64-decoding the padded first segment must be a JSON object with exactly
two top-level keys, those keys being `alg` and `kid`, and `alg` equal to
`"RS256"`. -/
def specHeaderOk (jwt : String) : Bool :=
  match base64StdDecode (padHeader (headerSegment jwt)) with
  | none => false
  | some bytes =>
    match goJsonUnmarshalMap bytes with
    | none => false
    | some obj =>
      (obj.length == 2) && (jsonLookup obj "alg").isSome && (jsonLookup obj "kid").isSome &&
      interfaceEqString (jsonLookup obj "alg") "RS256"

/-- Modelled from the spec's words (claim C6): `EmptyTokenError` exactly on
the empty token; `(true, nil)` exactly when the segment-shape pattern and all
header checks pass; `(false, nil)` in every other case. -/
def specValidJwt (jwt : String) : Bool × Option GoErr :=
  if jwt = "" then (false, some jwtEmptyStringError)
  else if jwtRegexMatches jwt && specHeaderOk jwt then (true, none)
  else (false, none)

/-- A verifier with no opt-in claim expectations and the default leeway. -/
def sampleVerifier : JwtVerifier :=
  JwtVerifier.mk "https://example.okta.com" 120 [] (some oidcDiscovery) (some defaultAdaptor)

/-- A world whose metadata fetch fails at the transport level. -/
def sampleWorld : World := World.mk (fun _ => Sum.inl "connection refused") 1000

/-- Header `("alg":"RS256","kid":"abc")` base64-encoded, then two more
periods: four segments, yet the unanchored pattern matches its suffix
`a.b.cde`. -/
def fourSegmentToken : String := "eyJhbGciOiJSUzI1NiIsImtpZCI6ImFiYyJ9.a.b.cde"

/-- The same header with a well-formed three-segment shape. -/
def threeSegmentToken : String := "eyJhbGciOiJSUzI1NiIsImtpZCI6ImFiYyJ9.p.sig"

/-- A claim set whose `iat` lies far in the past (and a valid `exp`). -/
def pastIatToken : Claims := [("exp", JsonValue.num 2000), ("iat", JsonValue.num 0)]

/-- A claim set whose `iat` lies far in the future (and a valid `exp`). -/
def futureIatToken : Claims := [("exp", JsonValue.num 2000), ("iat", JsonValue.num 5000)]

/-! ### Claims -/

/-- C1: the claim says the issued-at step fails exactly when
`now + leeway < iat` and that a past `iat` never fails. The code instead
applies `validateExp` to `iat` (lines 107 and 162), so at `now = 1000`,
`leeway = 120` a token with `iat = 0` fails the issued-at step with "the
token is expired" in both flows — although the source's own (never-called)
`validateIat` accepts it — and a token with `iat = 5000`, far in the future,
passes both flows although `validateIat` rejects it. -/
theorem c1_issuedAt_step_runs_expiry_comparison :
    verifyAccessClaims sampleVerifier 1000 pastIatToken
      = ClaimsOutcome.failure pastIatToken
          "the `Issued At` was not able to be validated. the token is expired"
  ∧ verifyIdClaims sampleVerifier 1000 pastIatToken
      = ClaimsOutcome.failure pastIatToken
          "the `Issued At` was not able to be validated. the token is expired"
  ∧ validateIat 1000 120 (jsonLookup pastIatToken "iat") = CheckResult.ok
  ∧ verifyAccessClaims sampleVerifier 1000 futureIatToken = ClaimsOutcome.success futureIatToken
  ∧ verifyIdClaims sampleVerifier 1000 futureIatToken = ClaimsOutcome.success futureIatToken
  ∧ validateIat 1000 120 (jsonLookup futureIatToken "iat")
      = CheckResult.fails "the token was issued in the future" :=
  ⟨rfl, rfl, rfl, rfl, rfl, rfl⟩

/-- C2: the expiry check fails with "the token is expired" exactly when
`now − leeway > exp`; with leeway 120 and current time `T`, `exp = T − 119`
passes and `exp = T − 121` fails. -/
theorem c2_expiry_check_boundary (now leeway T : Int) (e : ℚ) :
    (validateExp now leeway (some (JsonValue.num e)) = CheckResult.fails "the token is expired"
        ↔ (now : ℚ) - (leeway : ℚ) > e)
  ∧ validateExp T 120 (some (JsonValue.num ((T : ℚ) - 119))) = CheckResult.ok
  ∧ validateExp T 120 (some (JsonValue.num ((T : ℚ) - 121)))
      = CheckResult.fails "the token is expired" := by
  refine ⟨?_, ?_, ?_⟩
  · show (if ((now - leeway : Int) : ℚ) > e then CheckResult.fails "the token is expired"
        else CheckResult.ok) = CheckResult.fails "the token is expired" ↔ _
    have hc : ((now - leeway : Int) : ℚ) = (now : ℚ) - (leeway : ℚ) := by push_cast; ring
    rw [hc]
    split_ifs with h
    · simp [h]
    · simp [h]
  · show (if ((T - 120 : Int) : ℚ) > (T : ℚ) - 119 then CheckResult.fails "the token is expired"
        else CheckResult.ok) = CheckResult.ok
    rw [if_neg]
    push_cast
    linarith
  · show (if ((T - 120 : Int) : ℚ) > (T : ℚ) - 121 then CheckResult.fails "the token is expired"
        else CheckResult.ok) = CheckResult.fails "the token is expired"
    rw [if_pos]
    push_cast
    linarith

/-- C3 counterexample: the claim says a non-numeric or absent `exp`/`iat`
yields a validation error and never a crash; but `validateExp` on an absent
or string-valued claim faults (Go type-assertion panic), and so does the
whole access-token claims stage on a token with no `exp` claim. -/
theorem c3_counterexample :
    validateExp 1000 120 none = CheckResult.fault
  ∧ validateExp 1000 120 (some (JsonValue.str "1000")) = CheckResult.fault
  ∧ verifyAccessClaims sampleVerifier 1000 [] = ClaimsOutcome.fault :=
  ⟨rfl, rfl, rfl⟩

/-- C3 amended: for a non-numeric (or absent) `exp` or `iat` value the
timestamp checks fault — a Go runtime panic from the `.(float64)` type
assertion — rather than returning a validation error; only a numeric claim
value avoids the fault. -/
theorem c3_nonnumeric_timestamp_faults (now leeway : Int) (v : Option JsonValue) :
    (validateExp now leeway v = CheckResult.fault ↔ isNumericClaim v = false)
  ∧ (validateIat now leeway v = CheckResult.fault ↔ isNumericClaim v = false) := by
  constructor
  · cases v with
    | none => simp [validateExp, isNumericClaim]
    | some u =>
      cases u <;> (simp [validateExp, isNumericClaim]; try (split_ifs <;> simp))
  · cases v with
    | none => simp [validateIat, isNumericClaim]
    | some u =>
      cases u <;> (simp [validateIat, isNumericClaim]; try (split_ifs <;> simp))

/-- C9 counterexample: a caller-supplied leeway of 5 set before construction
is not preserved — `New` overwrites it with 120. -/
theorem c9_counterexample :
    (JwtVerifier.mk "https://example.okta.com" 5 [] none none).Leeway = 5
  ∧ (New (JwtVerifier.mk "https://example.okta.com" 5 [] none none)).Leeway = 120 :=
  ⟨rfl, rfl⟩

/-- C9 amended: `New` sets the leeway to the 120-second default
unconditionally, for every verifier — a caller-supplied value is overwritten,
not preserved (unlike the discovery and adaptor fields, which are defaulted
only when nil). -/
theorem c9_new_always_resets_leeway (j : JwtVerifier) : (New j).Leeway = 120 := rfl

/-- C4: both claim sequences equal the spec's short-circuiting check runner
applied to the spec's check order — access: issuer, audience, client id,
expiry, issued-at; identity: issuer, audience, expiry, issued-at, nonce.
`runChecks` stops at the first failing check and yields the decoded claim set
together with an error whose message names the failing claim, so the
short-circuit, the non-nil partial result and the naming wrap are part of the
equality. (The issued-at step reads the `iat` claim and reports as
`Issued At`; which comparison it runs is claim C1's concern.) -/
theorem c4_check_order_and_short_circuit (j : JwtVerifier) (now : Int) (token : Claims) :
    verifyAccessClaims j now token = runChecks token (accessCheckSequence j now)
  ∧ verifyIdClaims j now token = runChecks token (idCheckSequence j now) :=
  ⟨rfl, rfl⟩

/-- C5 counterexample: the claim says every non-empty string without exactly
three period-delimited URL-safe segments gets `(false, nil)`; but this
four-segment token is accepted with `(true, nil)`, because the Go pattern is
matched unanchored, so its suffix `a.b.cde` satisfies it, and the first
segment decodes to a well-formed RS256 header. -/
theorem c5_counterexample :
    (splitOnDots fourSegmentToken.data).length = 4
  ∧ isValidJwt fourSegmentToken = (true, none) :=
  ⟨rfl, rfl⟩

/-- C5 amended: for every non-empty string rejected by the (unanchored)
segment pattern, `isValidJwt` returns `(false, nil)` — a negative result with
no error, and no network call, since shape validation is pure; the
three-segment wording of the claim is what fails, not the negative-result
behaviour. -/
theorem c5_pattern_rejection_is_negative (s : String)
    (h1 : s ≠ "") (h2 : jwtRegexMatches s = false) :
    isValidJwt s = (false, none) := by
  unfold isValidJwt
  simp [h1, h2]

/-- C5 witness: the amended statement at the concrete non-matching input. -/
theorem c5_pattern_rejection_witness : isValidJwt "!!!" = (false, none) :=
  c5_pattern_rejection_is_negative "!!!" (by decide) rfl

/-- C6: `isValidJwt` coincides everywhere with the spec's description:
`EmptyTokenError` exactly on the empty string; `(true, nil)` exactly when the
segment-shape pattern passes and the padded first segment base64-decodes to a
JSON object with exactly two top-level keys `alg` and `kid` and
`alg = "RS256"`; `(false, nil)` in every other case. -/
theorem c6_isValidJwt_matches_spec (jwt : String) : isValidJwt jwt = specValidJwt jwt := by
  unfold isValidJwt specValidJwt specHeaderOk
  by_cases h0 : jwt = ""
  · simp [h0]
  · by_cases h1 : jwtRegexMatches jwt
    · cases hb : base64StdDecode (padHeader (headerSegment jwt)) with
      | none => simp [h0, h1, hb]
      | some bytes =>
        cases hj : goJsonUnmarshalMap bytes with
        | none => simp [h0, h1, hb, hj]
        | some obj =>
          by_cases h2 : obj.length = 2
          · cases ha : jsonLookup obj "alg" with
            | none => simp [h0, h1, hb, hj, h2, ha]
            | some av =>
              cases hk : jsonLookup obj "kid" with
              | none => simp [h0, h1, hb, hj, h2, ha, hk]
              | some kv =>
                cases h5 : interfaceEqString (some av) "RS256" with
                | false => simp [h0, h1, hb, hj, h2, ha, hk, h5]
                | true => simp [h0, h1, hb, hj, h2, ha, hk, h5]
          · simp [h0, h1, hb, hj, h2]
    · simp [h0, h1]

/-- C7: whenever the shape check is negative, the access-token flow returns a
generic "token is not valid" error wrapping the shape check's error value,
while the identity-token flow returns the shape check's error value itself,
unchanged — for every verifier, world and token. -/
theorem c7_shape_failure_asymmetry (j : JwtVerifier) (w : World) (t : String)
    (h : (isValidJwt t).1 = false) :
    VerifyAccessToken j w t
      = FlowResult.ret none
          (some (GoErr.errorf ("token is not valid: " ++ goErrFmt (isValidJwt t).2)))
  ∧ VerifyIdToken j w t = FlowResult.ret none (isValidJwt t).2 := by
  unfold VerifyAccessToken VerifyIdToken
  simp [h]

/-- C7 witness: the asymmetry at the empty token — the access flow wraps the
empty-token error, the identity flow returns it as-is. -/
theorem c7_shape_failure_asymmetry_witness :
    VerifyAccessToken sampleVerifier sampleWorld ""
      = FlowResult.ret none
          (some (GoErr.errorf ("token is not valid: " ++ goErrFmt (isValidJwt "").2)))
  ∧ VerifyIdToken sampleVerifier sampleWorld "" = FlowResult.ret none (isValidJwt "").2 :=
  c7_shape_failure_asymmetry sampleVerifier sampleWorld "" rfl

/-- C8: the claim says every decode-stage failure is returned as an ordinary
error and verification never aborts the process. In fact, on a metadata
transport failure both flows hit `log.Fatal` and abort the process; on
unparsable metadata (whose decode error is discarded) the
`metaData["jwks_uri"].(string)` assertion faults; only the signature
decoder's rejection is actually returned as a wrapped ordinary error. -/
theorem c8_decode_stage_aborts_or_faults :
    VerifyAccessToken sampleVerifier (World.mk (fun _ => Sum.inl "connection refused") 1000)
        threeSegmentToken = FlowResult.fatal "connection refused"
  ∧ VerifyIdToken sampleVerifier (World.mk (fun _ => Sum.inl "connection refused") 1000)
        threeSegmentToken = FlowResult.fatal "connection refused"
  ∧ VerifyAccessToken sampleVerifier (World.mk (fun _ => Sum.inr "not json") 1000)
        threeSegmentToken = FlowResult.fault
  ∧ VerifyAccessToken sampleVerifier
        (World.mk (fun _ => Sum.inr "\x7b\"jwks_uri\":\"https://example.okta.com/keys\"\x7d") 1000)
        threeSegmentToken
      = FlowResult.ret none (some (GoErr.errorf "could not decode token: signature")) :=
  ⟨rfl, rfl, rfl, rfl⟩

/-- C10: for every non-empty token the shape check rejects with a negative
result and nil error, `VerifyIdToken` returns a nil result and a nil error —
the caller gets no error indication at all. -/
theorem c10_id_flow_swallows_shape_rejection (j : JwtVerifier) (w : World) (t : String)
    (_h1 : t ≠ "") (h2 : isValidJwt t = (false, none)) :
    VerifyIdToken j w t = FlowResult.ret none none := by
  unfold VerifyIdToken
  simp [h2]

/-- C10 witness: the malformed non-empty token `abc` produces `(nil, nil)`
from the identity-token flow. -/
theorem c10_id_flow_swallows_shape_rejection_witness :
    VerifyIdToken sampleVerifier sampleWorld "abc" = FlowResult.ret none none :=
  c10_id_flow_swallows_shape_rejection sampleVerifier sampleWorld "abc" (by decide) rfl
